import Mathlib

/-!
Shallow embedding of `agenta/sdk/agenta_init.py`: the `AgentaSingleton`
class and the `Config` class.

Modelling conventions:
* Python objects are attribute dictionaries `Dict = List (String × PyVal)`
  (Python `__dict__`, insertion-ordered, keys unique once built via
  `dictSet`); `setattr` is `dictSet`, attribute read is `dictGet`
  (returning `none` models an `AttributeError`).
* Python exceptions are the `PyErr` type; a fallible operation returns
  `Except PyErr α`.  A Python `try`/`except Exception` block is a `match`
  on such a result.
* The backend client (`self.client...`, an external collaborator of this
  module) is passed in as oracle functions returning `Except PyErr _`:
  `list_apps`, `list_bases`, `save_config`, `get_config`.
* Python truthiness (`if not self.base_id`, `x or y`) is made explicit
  via `pyTruthy` / `pyOr`: `None` and the empty string are falsy.
-/

/-- A Python runtime value, as far as this module manipulates them. -/
inductive PyVal where
  | none
  | str (s : String)
  | bool (b : Bool)
  | int (n : Int)
  | obj (tag : String)
  deriving DecidableEq

/-- A raised Python exception, by class and message. -/
inductive PyErr where
  | attributeError (name : String)
  | runtimeError (msg : String)
  | apiRequestError (msg : String)
  | exception (msg : String)
  | unboundLocal (name : String)
  deriving DecidableEq

/-- `str(ex)`: the text of an exception, as interpolated into log messages. -/
def PyErr.toText : PyErr → String
  | .attributeError n => "object has no attribute " ++ n
  | .runtimeError m => m
  | .apiRequestError m => m
  | .exception m => m
  | .unboundLocal n => "local variable " ++ n ++ " referenced before assignment"

/-- A Python object's `__dict__`: insertion-ordered attribute list. -/
abbrev Dict := List (String × PyVal)

/-- Attribute read: first binding of the name, `none` if absent. -/
def dictGet (d : Dict) (k : String) : Option PyVal :=
  match d with
  | [] => Option.none
  | (k1, v) :: rest => if k1 = k then some v else dictGet rest k

/-- `setattr`: overwrite the binding in place if the name exists, else append. -/
def dictSet (d : Dict) (k : String) (v : PyVal) : Dict :=
  match d with
  | [] => [(k, v)]
  | (k1, v1) :: rest => if k1 = k then (k, v) :: rest else (k1, v1) :: dictSet rest k v

/-- Python truthiness of a value (`if x:`): `None`, `""`, `False`, `0` are falsy. -/
def pyTruthy : PyVal → Bool
  | .none => false
  | .str s => s != ""
  | .bool b => b
  | .int n => n != 0
  | .obj _ => true

/-- Truthiness of an `Optional[str]`: `None` and `""` are falsy. -/
def pyTruthyOpt : Option String → Bool
  | Option.none => false
  | some s => s != ""

/-- Python `a or b` on `Optional[str]` operands: `b` when `a` is falsy. -/
def pyOr (a b : Option String) : Option String :=
  if pyTruthyOpt a then a else b

/-- Python `a or b` where `b` is a plain string
(`host or os.environ.get("AGENTA_HOST", "http://localhost")`). -/
def pyOrStr (a : Option String) (b : String) : String :=
  match a with
  | some s => if s = "" then b else s
  | Option.none => b

/-- Embed an `Optional[str]` as the Python value stored in an attribute. -/
def pyOfOpt : Option String → PyVal
  | Option.none => PyVal.none
  | some s => PyVal.str s

/-! ## `Config` -/

/-- The six names `Config.all` filters out of `self.__dict__`. -/
def bookkeepingKeys : List String :=
  ["app_name", "base_name", "host", "base_id", "api_key", "persist"]

/-- `Config.__init__(self, base_id, host)`: stores both arguments and sets
`persist` to `False` iff `base_id is None or host is None`. -/
def Config.mkDict (base_id host : Option String) : Dict :=
  let d := dictSet [] "base_id" (pyOfOpt base_id)
  let d := dictSet d "host" (pyOfOpt host)
  if base_id = Option.none ∨ host = Option.none then
    dictSet d "persist" (PyVal.bool false)
  else
    dictSet d "persist" (PyVal.bool true)

/-- `Config.set(self, **kwargs)`: `setattr(self, key, value)` for each pair,
in order. -/
def Config.set (d : Dict) (kwargs : List (String × PyVal)) : Dict :=
  kwargs.foldl (fun acc kv => dictSet acc kv.1 kv.2) d

/-- `Config.all(self)`: `self.__dict__` minus the bookkeeping keys. -/
def Config.all (d : Dict) : Dict :=
  d.filter (fun kv => ¬ kv.1 ∈ bookkeepingKeys)

/-- `Config.push(self, config_name, overwrite=True, **kwargs)`.

Returns `(state, networkCalls, warnings)`; `save_config` is the backend
oracle (`self.client.configs.save_config`), taking the `base_id` attribute
value, the config name, the parameter bag and the overwrite flag.
「`if not self.persist: return`」 is the early exit with zero network calls;
otherwise the remote call is attempted inside `try`/`except Exception`,
whose failure is turned into a logged warning. -/
def Config.push (d : Dict) (config_name : String) (overwrite : Bool)
    (kwargs : List (String × PyVal))
    (save_config : PyVal → String → List (String × PyVal) → Bool → Except PyErr Unit) :
    Except PyErr (Dict × Nat × List String) :=
  match dictGet d "persist" with
  | Option.none => Except.error (PyErr.attributeError "persist")
  | some persistV =>
    if ¬ pyTruthy persistV then
      Except.ok (d, 0, [])
    else
      match (match dictGet d "base_id" with
             | Option.none => Except.error (PyErr.attributeError "base_id")
             | some baseIdV => save_config baseIdV config_name kwargs overwrite) with
      | Except.ok _ => Except.ok (d, 1, [])
      | Except.error ex =>
        Except.ok (d, 1,
          ["Failed to push the configuration to the server with error: " ++ ex.toText])

/-- The result of a successful `get_config` backend call. -/
structure FetchedConfig where
  current_version : PyVal
  parameters : List (String × PyVal)
  deriving DecidableEq

/-- The remote fetch inside `Config.pull`: `get_config` keyed by
`environment_name` when that argument is truthy, else by `config_name`
(both calls also pass the `base_id` attribute value). -/
def Config.pullFetch (baseIdV : PyVal) (config_name : String)
    (environment_name : Option String)
    (get_config_env : PyVal → String → Except PyErr FetchedConfig)
    (get_config_name : PyVal → String → Except PyErr FetchedConfig) :
    Except PyErr FetchedConfig :=
  match environment_name with
  | some en =>
    if en ≠ "" then get_config_env baseIdV en
    else get_config_name baseIdV config_name
  | Option.none => get_config_name baseIdV config_name

/-- `Config.pull(self, config_name="default", environment_name=None)`.

Returns `(state, warnings)` on normal return, `Except.error` when an
exception escapes.  The guard raises when `persist` is falsy and the caller
asked for anything but the bare default.  When `persist` is truthy the
remote fetch runs inside `try`/`except`, a failure being logged; the local
variable `config` then stays unbound, so the final `try: self.set(...)`
raises `UnboundLocalError`, itself caught and logged. -/
def Config.pull (d : Dict) (config_name : String) (environment_name : Option String)
    (get_config_env : PyVal → String → Except PyErr FetchedConfig)
    (get_config_name : PyVal → String → Except PyErr FetchedConfig) :
    Except PyErr (Dict × List String) :=
  match dictGet d "persist" with
  | Option.none => Except.error (PyErr.attributeError "persist")
  | some persistV =>
    if ¬ pyTruthy persistV ∧ (config_name ≠ "default" ∨ environment_name ≠ Option.none) then
      Except.error (PyErr.exception
        "Cannot pull the configuration from the server since the app_name and base_name are not provided.")
    else
      let fetched : Option FetchedConfig × List String :=
        if pyTruthy persistV then
          match (match dictGet d "base_id" with
                 | Option.none => Except.error (PyErr.attributeError "base_id")
                 | some baseIdV =>
                   Config.pullFetch baseIdV config_name environment_name
                     get_config_env get_config_name) with
          | Except.ok fc => (some fc, [])
          | Except.error ex =>
            (Option.none,
             ["Failed to pull the configuration from the server with error: " ++ ex.toText])
        else (Option.none, [])
      match fetched with
      | (some fc, ws) =>
        Except.ok (Config.set d (("current_version", fc.current_version) :: fc.parameters), ws)
      | (Option.none, ws) =>
        Except.ok (d, ws ++
          ["Failed to set the configuration with error: "
            ++ (PyErr.unboundLocal "config").toText])

/-! ## `AgentaSingleton` -/

/-- One element of the `list_apps` backend response. -/
structure AppRec where
  app_id : String
  deriving DecidableEq

/-- One element of the `list_bases` backend response. -/
structure BaseRec where
  base_id : String
  deriving DecidableEq

/-- `AgentaSingleton.get_app(self, app_name)`: list apps filtered by name;
empty result raises `APIRequestError`, else the first element's `app_id`. -/
def AgentaSingleton.get_app
    (list_apps : String → Except PyErr (List AppRec)) (app_name : String) :
    Except PyErr String :=
  match list_apps app_name with
  | Except.error ex => Except.error ex
  | Except.ok apps =>
    match apps with
    | [] => Except.error (PyErr.apiRequestError
        ("App with name " ++ app_name ++ " not found"))
    | a :: _ => Except.ok a.app_id

/-- `AgentaSingleton.get_app_base(self, app_id, base_name)`: list bases
filtered by app id and base name; empty result raises `APIRequestError`,
else the first element's `base_id`. -/
def AgentaSingleton.get_app_base
    (list_bases : String → String → Except PyErr (List BaseRec))
    (app_id base_name : String) :
    Except PyErr String :=
  match list_bases app_id base_name with
  | Except.error ex => Except.error ex
  | Except.ok bases =>
    match bases with
    | [] => Except.error (PyErr.apiRequestError
        ("No base was found for the app " ++ app_id))
    | b :: _ => Except.ok b.base_id

/-- Explicit arguments to `AgentaSingleton.init` (all `Optional[str]`). -/
structure InitArgs where
  app_name : Option String
  base_name : Option String
  api_key : Option String
  base_id : Option String
  app_id : Option String
  host : Option String
  deriving DecidableEq

/-- The environment variables `init` reads (`os.environ.get`; `none` = unset). -/
structure Env where
  agenta_app_name : Option String
  agenta_base_name : Option String
  agenta_api_key : Option String
  agenta_base_id : Option String
  agenta_app_id : Option String
  agenta_host : Option String
  agenta_variant_id : Option String
  agenta_variant_name : Option String
  deriving DecidableEq

/-- The guard of the name→id resolution step:
`if not self.base_id and self.app_name and self.base_name:` (on the merged
argument/environment values). -/
def resolveCondition (base_id app_name base_name : Option String) : Bool :=
  (!pyTruthyOpt base_id) && pyTruthyOpt app_name && pyTruthyOpt base_name

/-- The body of the resolution `try` block in `AgentaSingleton.init`:
`self.app_id = self.get_app(self.app_name)` then
`self.base_id = self.get_app_base(self.app_id, self.base_name)`.
Only entered when `resolveCondition` holds, so the merged names are
`some` of a non-empty string there; `getD ""` extracts the string. -/
def AgentaSingleton.resolveIds
    (list_apps : String → Except PyErr (List AppRec))
    (list_bases : String → String → Except PyErr (List BaseRec))
    (app_name base_name : Option String) :
    Except PyErr (String × String) :=
  match AgentaSingleton.get_app list_apps (app_name.getD "") with
  | Except.error e => Except.error e
  | Except.ok aid =>
    match AgentaSingleton.get_app_base list_bases aid (base_name.getD "") with
    | Except.error e => Except.error e
    | Except.ok bid => Except.ok (aid, bid)

/-- Observable outcome of a successful `AgentaSingleton.init` call. -/
structure InitOutcome where
  /-- The singleton's attribute dictionary after `init` returns. -/
  attrs : Dict
  /-- The `__dict__` of the `Config` object stored in `self.config`. -/
  config : Dict
  /-- Whether the non-fatal "will not be saved permanently" warning printed. -/
  warned : Bool
  /-- Whether the name→id resolution branch was entered. -/
  resolutionAttempted : Bool
  deriving DecidableEq

/-- The singleton's visible attributes before `init` runs: only the class
attributes `_instance`, `setup = None`, `config = None` from the class body. -/
def AgentaSingleton.freshAttrs : Dict :=
  [("_instance", PyVal.obj "AgentaSingleton"), ("setup", PyVal.none),
   ("config", PyVal.none)]

/-- The singleton's attribute dictionary as left by the assignments in
`init` (in source order; `self.config` overwrites the class attribute). -/
def AgentaSingleton.buildAttrs (app_name base_name api_key base_id app_id : Option String)
    (host : String) (variant_id variant_name : Option String) : Dict :=
  let attrs := AgentaSingleton.freshAttrs
  let attrs := dictSet attrs "app_name" (pyOfOpt app_name)
  let attrs := dictSet attrs "base_name" (pyOfOpt base_name)
  let attrs := dictSet attrs "api_key" (pyOfOpt api_key)
  let attrs := dictSet attrs "base_id" (pyOfOpt base_id)
  let attrs := dictSet attrs "app_id" (pyOfOpt app_id)
  let attrs := dictSet attrs "host" (PyVal.str host)
  let attrs := dictSet attrs "variant_id" (pyOfOpt variant_id)
  let attrs := dictSet attrs "variant_name" (pyOfOpt variant_name)
  dictSet attrs "config" (PyVal.obj "Config")

/-- `AgentaSingleton.init(self, app_name=None, base_name=None, api_key=None,
base_id=None, app_id=None, host=None, **kwargs)`.

Merges each argument with its environment fallback via Python `or`, warns
when no persistable identity can be formed, runs name→id resolution when
`resolveCondition` holds (wrapping any exception in `APIRequestError`),
reads the two variant environment variables, and builds `self.config`. -/
def AgentaSingleton.init (args : InitArgs) (env : Env)
    (list_apps : String → Except PyErr (List AppRec))
    (list_bases : String → String → Except PyErr (List BaseRec)) :
    Except PyErr InitOutcome :=
  let app_name := pyOr args.app_name env.agenta_app_name
  let base_name := pyOr args.base_name env.agenta_base_name
  let api_key := pyOr args.api_key env.agenta_api_key
  let base_id0 := pyOr args.base_id env.agenta_base_id
  let app_id0 := pyOr args.app_id env.agenta_app_id
  let host := pyOrStr args.host (env.agenta_host.getD "http://localhost")
  let warned := (!pyTruthyOpt app_id0) && ((!pyTruthyOpt app_name) || (!pyTruthyOpt base_name))
  let resolve := resolveCondition base_id0 app_name base_name
  let resolved : Except PyErr (Option String × Option String) :=
    if resolve then
      match AgentaSingleton.resolveIds list_apps list_bases app_name base_name with
      | Except.ok (aid, bid) => Except.ok (some aid, some bid)
      | Except.error ex =>
        Except.error (PyErr.apiRequestError
          ("Failed to get base id and/or app_id from the server with error: " ++ ex.toText))
    else Except.ok (app_id0, base_id0)
  match resolved with
  | Except.error ex => Except.error ex
  | Except.ok (app_id, base_id) =>
    Except.ok
      { attrs := AgentaSingleton.buildAttrs app_name base_name api_key base_id app_id
          host env.agenta_variant_id env.agenta_variant_name
        config := Config.mkDict base_id (some host)
        warned := warned
        resolutionAttempted := resolve }

/-- `AgentaSingleton.get_current_config(self)`: reads `self._config_data`
(an attribute no code path ever assigns); raises `RuntimeError` if that
value is `None`, else returns it.  An absent attribute raises
`AttributeError`. -/
def AgentaSingleton.get_current_config (attrs : Dict) : Except PyErr PyVal :=
  match dictGet attrs "_config_data" with
  | Option.none => Except.error (PyErr.attributeError "_config_data")
  | some v =>
    if v = PyVal.none then
      Except.error (PyErr.runtimeError "AgentaSingleton has not been initialized")
    else Except.ok v

/-! ## Concrete backend fixtures used to instantiate the oracles -/

/-- An environment with no `AGENTA_*` variable set. -/
def envEmpty : Env :=
  ⟨Option.none, Option.none, Option.none, Option.none,
   Option.none, Option.none, Option.none, Option.none⟩

/-- Backend in which every app listing returns one app `A1`. -/
def appsOne : String → Except PyErr (List AppRec) := fun _ => Except.ok [⟨"A1"⟩]

/-- Backend in which every app listing returns the empty sequence. -/
def appsEmpty : String → Except PyErr (List AppRec) := fun _ => Except.ok []

/-- Backend in which every app listing itself raises. -/
def appsFail : String → Except PyErr (List AppRec) :=
  fun _ => Except.error (PyErr.exception "connection refused")

/-- Backend in which every base listing returns one base `B1`. -/
def basesOne : String → String → Except PyErr (List BaseRec) := fun _ _ => Except.ok [⟨"B1"⟩]

/-- Backend in which every base listing returns the empty sequence. -/
def basesEmpty : String → String → Except PyErr (List BaseRec) := fun _ _ => Except.ok []

/-- Backend in which every `get_config` call raises. -/
def fetchFail : PyVal → String → Except PyErr FetchedConfig :=
  fun _ _ => Except.error (PyErr.exception "connection refused")

/-- Backend in which every `save_config` call succeeds. -/
def saveOk : PyVal → String → List (String × PyVal) → Bool → Except PyErr Unit :=
  fun _ _ _ _ => Except.ok ()

/-- Backend in which every `save_config` call raises. -/
def saveFail : PyVal → String → List (String × PyVal) → Bool → Except PyErr Unit :=
  fun _ _ _ _ => Except.error (PyErr.exception "connection refused")

/-! ## Dictionary lemmas -/

theorem dictGet_dictSet (d : Dict) (k q : String) (v : PyVal) :
    dictGet (dictSet d k v) q = if k = q then some v else dictGet d q := by
  induction d with
  | nil => simp [dictSet, dictGet]
  | cons kv rest ih =>
    obtain ⟨k1, v1⟩ := kv
    by_cases h1 : k1 = k
    · subst h1
      by_cases h2 : k1 = q <;> simp [dictSet, dictGet, h2]
    · by_cases h2 : k1 = q
      · subst h2
        simp [dictSet, dictGet, h1, Ne.symm h1]
      · simp [dictSet, dictGet, h1, h2, ih]

theorem dictGet_dictSet_self (d : Dict) (k : String) (v : PyVal) :
    dictGet (dictSet d k v) k = some v := by
  simp [dictGet_dictSet]

theorem dictGet_dictSet_ne (d : Dict) (k q : String) (v : PyVal) (h : k ≠ q) :
    dictGet (dictSet d k v) q = dictGet d q := by
  simp [dictGet_dictSet, h]

/-- The final binding of a key in a kwargs list (later entries win),
the net effect of iterating `setattr` over the pairs in order. -/
def lastAssign : List (String × PyVal) → String → Option PyVal
  | [], _ => Option.none
  | (k1, v1) :: rest, k =>
    match lastAssign rest k with
    | some w => some w
    | Option.none => if k1 = k then some v1 else Option.none

theorem dictGet_set (d : Dict) (kwargs : List (String × PyVal)) (k : String) :
    dictGet (Config.set d kwargs) k =
      match lastAssign kwargs k with
      | some v => some v
      | Option.none => dictGet d k := by
  induction kwargs generalizing d with
  | nil => simp [Config.set, lastAssign]
  | cons kv rest ih =>
    obtain ⟨k1, v1⟩ := kv
    have hstep : Config.set d ((k1, v1) :: rest) = Config.set (dictSet d k1 v1) rest := by
      simp [Config.set]
    rw [hstep, ih]
    rcases hl : lastAssign rest k with _ | w
    · by_cases h1 : k1 = k <;>
        simp [lastAssign, hl, h1, dictGet_dictSet]
    · simp [lastAssign, hl]

theorem dictGet_set_single_self (d : Dict) (k : String) (v : PyVal) :
    dictGet (Config.set d [(k, v)]) k = some v := by
  simp [dictGet_set, lastAssign]

theorem dictGet_set_single_ne (d : Dict) (k q : String) (v : PyVal) (h : q ≠ k) :
    dictGet (Config.set d [(k, v)]) q = dictGet d q := by
  simp [dictGet_set, lastAssign, Ne.symm h]

/-- `Config.all` removes exactly the bookkeeping keys. -/
theorem dictGet_all_bookkeeping (d : Dict) (k : String) (h : k ∈ bookkeepingKeys) :
    dictGet (Config.all d) k = Option.none := by
  induction d with
  | nil => simp [Config.all, dictGet]
  | cons kv rest ih =>
    obtain ⟨k1, v1⟩ := kv
    by_cases h1 : k1 ∈ bookkeepingKeys
    · simpa [Config.all, h1] using ih
    · have hne : k1 ≠ k := fun hk => h1 (hk ▸ h)
      simpa [Config.all, h1, dictGet, hne] using ih

/-- `Config.all` keeps every non-bookkeeping key with its value. -/
theorem dictGet_all_other (d : Dict) (k : String) (h : ¬ k ∈ bookkeepingKeys) :
    dictGet (Config.all d) k = dictGet d k := by
  induction d with
  | nil => simp [Config.all]
  | cons kv rest ih =>
    obtain ⟨k1, v1⟩ := kv
    by_cases h1 : k1 ∈ bookkeepingKeys
    · have hne : k1 ≠ k := fun hk => h (hk ▸ h1)
      simpa [Config.all, h1, dictGet, hne] using ih
    · by_cases h2 : k1 = k
      · subst h2; simp [Config.all, h1, dictGet]
      · simpa [Config.all, h1, dictGet, h2] using ih

/-! ## Access lemmas for the singleton attribute dictionary -/

theorem buildAttrs_app_name (a b c d e : Option String) (h : String) (vi vn : Option String) :
    dictGet (AgentaSingleton.buildAttrs a b c d e h vi vn) "app_name" = pyOfOpt a := rfl

theorem buildAttrs_base_name (a b c d e : Option String) (h : String) (vi vn : Option String) :
    dictGet (AgentaSingleton.buildAttrs a b c d e h vi vn) "base_name" = pyOfOpt b := rfl

theorem buildAttrs_api_key (a b c d e : Option String) (h : String) (vi vn : Option String) :
    dictGet (AgentaSingleton.buildAttrs a b c d e h vi vn) "api_key" = pyOfOpt c := rfl

theorem buildAttrs_base_id (a b c d e : Option String) (h : String) (vi vn : Option String) :
    dictGet (AgentaSingleton.buildAttrs a b c d e h vi vn) "base_id" = pyOfOpt d := rfl

theorem buildAttrs_app_id (a b c d e : Option String) (h : String) (vi vn : Option String) :
    dictGet (AgentaSingleton.buildAttrs a b c d e h vi vn) "app_id" = pyOfOpt e := rfl

theorem buildAttrs_host (a b c d e : Option String) (h : String) (vi vn : Option String) :
    dictGet (AgentaSingleton.buildAttrs a b c d e h vi vn) "host" = PyVal.str h := rfl

theorem buildAttrs_config_data (a b c d e : Option String) (h : String) (vi vn : Option String) :
    dictGet (AgentaSingleton.buildAttrs a b c d e h vi vn) "_config_data" = Option.none := rfl

/-- Shape of every successful `init`: the singleton's attributes are
`buildAttrs` of the merged identity values, where the stored base id and
app id are the merged ones exactly when resolution was not attempted. -/
theorem init_ok_shape (args : InitArgs) (env : Env)
    (la : String → Except PyErr (List AppRec))
    (lb : String → String → Except PyErr (List BaseRec))
    (o : InitOutcome)
    (hok : AgentaSingleton.init args env la lb = Except.ok o) :
    ∃ bid aid : Option String,
      o = { attrs := AgentaSingleton.buildAttrs
              (pyOr args.app_name env.agenta_app_name)
              (pyOr args.base_name env.agenta_base_name)
              (pyOr args.api_key env.agenta_api_key)
              bid aid
              (pyOrStr args.host (env.agenta_host.getD "http://localhost"))
              env.agenta_variant_id env.agenta_variant_name
            config := Config.mkDict bid
              (some (pyOrStr args.host (env.agenta_host.getD "http://localhost")))
            warned := (!pyTruthyOpt (pyOr args.app_id env.agenta_app_id))
              && ((!pyTruthyOpt (pyOr args.app_name env.agenta_app_name))
                  || (!pyTruthyOpt (pyOr args.base_name env.agenta_base_name)))
            resolutionAttempted := resolveCondition (pyOr args.base_id env.agenta_base_id)
              (pyOr args.app_name env.agenta_app_name)
              (pyOr args.base_name env.agenta_base_name) } ∧
      (resolveCondition (pyOr args.base_id env.agenta_base_id)
          (pyOr args.app_name env.agenta_app_name)
          (pyOr args.base_name env.agenta_base_name) = false →
        bid = pyOr args.base_id env.agenta_base_id ∧
        aid = pyOr args.app_id env.agenta_app_id) := by
  unfold AgentaSingleton.init at hok
  by_cases hR : resolveCondition (pyOr args.base_id env.agenta_base_id)
      (pyOr args.app_name env.agenta_app_name)
      (pyOr args.base_name env.agenta_base_name) = true
  · simp only [hR, if_true] at hok
    rcases hres : AgentaSingleton.resolveIds la lb (pyOr args.app_name env.agenta_app_name)
        (pyOr args.base_name env.agenta_base_name) with e | ⟨aid, bid⟩
    · rw [hres] at hok
      simp at hok
    · rw [hres] at hok
      simp only [Except.ok.injEq] at hok
      refine ⟨some bid, some aid, ?_, ?_⟩
      · rw [← hok, hR]
      · intro hfalse
        rw [hR] at hfalse
        simp at hfalse
  · simp only [Bool.not_eq_true] at hR
    simp only [hR, Bool.false_eq_true, if_false, Except.ok.injEq] at hok
    refine ⟨pyOr args.base_id env.agenta_base_id, pyOr args.app_id env.agenta_app_id, ?_, ?_⟩
    · rw [← hok, hR]
    · intro _
      exact ⟨rfl, rfl⟩

/-! ## Claim theorems -/

/-- Claim C3: the `Config` built from `(baseId, host)` has `persist = true`
iff both are non-null, for all four presence combinations, fixed by the
constructor. -/
theorem persist_iff_base_and_host (b h : Option String) :
    (dictGet (Config.mkDict b h) "persist" = some (PyVal.bool true) ↔
      b ≠ Option.none ∧ h ≠ Option.none) ∧
    dictGet (Config.mkDict b h) "persist" = some (PyVal.bool (b.isSome && h.isSome)) := by
  cases b <;> cases h <;> simp [Config.mkDict, dictSet, dictGet]

/-- Claim C8: `Config.set` merges its pairs into the attribute bag, a later
binding overwriting an earlier one and leaving other names intact (in
particular `set a:1; set b:2; set a:3` gives `a = 3` and `b = 2`), and
`Config.all` is exactly the local bag minus the six bookkeeping keys. -/
theorem set_merges_and_all_filters (d : Dict) :
    (∀ kwargs k, dictGet (Config.set d kwargs) k =
       match lastAssign kwargs k with
       | some v => some v
       | Option.none => dictGet d k) ∧
    dictGet (Config.set (Config.set d [("a", PyVal.int 1)]) [("b", PyVal.int 2)]) "a"
      = some (PyVal.int 1) ∧
    dictGet (Config.set (Config.set d [("a", PyVal.int 1)]) [("b", PyVal.int 2)]) "b"
      = some (PyVal.int 2) ∧
    dictGet (Config.set (Config.set (Config.set d [("a", PyVal.int 1)]) [("b", PyVal.int 2)])
        [("a", PyVal.int 3)]) "a" = some (PyVal.int 3) ∧
    dictGet (Config.set (Config.set (Config.set d [("a", PyVal.int 1)]) [("b", PyVal.int 2)])
        [("a", PyVal.int 3)]) "b" = some (PyVal.int 2) ∧
    (∀ k, k ∈ bookkeepingKeys → dictGet (Config.all d) k = Option.none) ∧
    (∀ k, ¬ k ∈ bookkeepingKeys → dictGet (Config.all d) k = dictGet d k) := by
  refine ⟨dictGet_set d, ?_, ?_, ?_, ?_, dictGet_all_bookkeeping d, dictGet_all_other d⟩
  · rw [dictGet_set_single_ne _ _ _ _ (by decide), dictGet_set_single_self]
  · rw [dictGet_set_single_self]
  · rw [dictGet_set_single_self]
  · rw [dictGet_set_single_ne _ _ _ _ (by decide),
      dictGet_set_single_self]

/-- Witness for C8 at a concrete configuration: the bookkeeping key
`persist` is hidden by `all` while a caller-set parameter `a` survives
through the set chain. -/
theorem set_merges_and_all_filters_witness :
    dictGet (Config.all (Config.mkDict (some "b") (some "h"))) "persist" = Option.none ∧
    dictGet (Config.all (Config.mkDict (some "b") (some "h"))) "a"
      = dictGet (Config.mkDict (some "b") (some "h")) "a" ∧
    dictGet (Config.set (Config.set (Config.mkDict (some "b") (some "h"))
        [("a", PyVal.int 1)]) [("b", PyVal.int 2)]) "a" = some (PyVal.int 1) :=
  ⟨(set_merges_and_all_filters (Config.mkDict (some "b") (some "h"))).2.2.2.2.2.1
      "persist" (by decide),
   (set_merges_and_all_filters (Config.mkDict (some "b") (some "h"))).2.2.2.2.2.2
      "a" (by decide),
   (set_merges_and_all_filters (Config.mkDict (some "b") (some "h"))).2.1⟩

/-- Claim C10: `Config.set` writes any caller-supplied name unfiltered, so
it can overwrite the internal `persist` field: on a configuration built
with no base id (`persist = false`, `push` makes zero remote calls),
`set persist:=True` makes a later `push` attempt the remote call. -/
theorem set_overwrites_persist_enables_push :
    (∀ d k v, dictGet (Config.set d [(k, v)]) k = some v) ∧
    dictGet (Config.mkDict Option.none (some "http://localhost")) "persist"
      = some (PyVal.bool false) ∧
    Config.push (Config.mkDict Option.none (some "http://localhost")) "default" true [] saveOk
      = Except.ok (Config.mkDict Option.none (some "http://localhost"), 0, []) ∧
    dictGet (Config.set (Config.mkDict Option.none (some "http://localhost"))
        [("persist", PyVal.bool true)]) "persist" = some (PyVal.bool true) ∧
    Config.push (Config.set (Config.mkDict Option.none (some "http://localhost"))
        [("persist", PyVal.bool true)]) "default" true [] saveOk
      = Except.ok (Config.set (Config.mkDict Option.none (some "http://localhost"))
          [("persist", PyVal.bool true)], 1, []) :=
  ⟨dictGet_set_single_self, by decide, rfl, by decide, rfl⟩

/-- Claim C1 (code bug): `get_current_config` reads `self._config_data`,
an attribute no code path assigns, so it raises `AttributeError` both
after a successful `init` (even though the configuration was stored in
`self.config`) and on the fresh singleton — instead of returning the
stored configuration resp. raising the initialization-order
`RuntimeError`. -/
theorem get_current_config_reads_unassigned_attribute :
    (AgentaSingleton.init
        ⟨some "app", some "base", Option.none, some "b", Option.none, some "h"⟩
        envEmpty appsOne basesOne).map
        (fun o => AgentaSingleton.get_current_config o.attrs)
      = Except.ok (Except.error (PyErr.attributeError "_config_data")) ∧
    (AgentaSingleton.init
        ⟨some "app", some "base", Option.none, some "b", Option.none, some "h"⟩
        envEmpty appsOne basesOne).map
        (fun o => dictGet o.attrs "config")
      = Except.ok (some (PyVal.obj "Config")) ∧
    AgentaSingleton.get_current_config AgentaSingleton.freshAttrs
      = Except.error (PyErr.attributeError "_config_data") := by
  refine ⟨?_, ?_, rfl⟩ <;> rfl

/-- Claim C2: on a configuration whose `persist` attribute is falsy,
`pull` raises the persistence-unavailable exception exactly when the
caller asked for anything other than the bare default, and the bare
`pull()` returns normally with the local state unchanged (the fetch is
skipped; the final `set` attempt fails on the unbound local `config` and
is swallowed as a warning). -/
theorem pull_nonpersist_guard (d : Dict) (v : PyVal) (cn : String) (en : Option String)
    (ge gn : PyVal → String → Except PyErr FetchedConfig)
    (hp : dictGet d "persist" = some v) (hf : pyTruthy v = false) :
    (cn ≠ "default" ∨ en ≠ Option.none →
      Config.pull d cn en ge gn = Except.error (PyErr.exception
        "Cannot pull the configuration from the server since the app_name and base_name are not provided.")) ∧
    (cn = "default" → en = Option.none →
      Config.pull d cn en ge gn = Except.ok
        (d, ["Failed to set the configuration with error: local variable config referenced before assignment"])) := by
  constructor
  · intro hne
    simp [Config.pull, hp, hf, hne]
  · intro hcn hen
    subst hcn hen
    simp [Config.pull, hp, hf, PyErr.toText]

/-- Witness for C2 on the configuration built with no base id:
`pull("custom")` raises, the bare `pull()` returns the state unchanged. -/
theorem pull_nonpersist_guard_witness :
    Config.pull (Config.mkDict Option.none (some "h")) "custom" Option.none fetchFail fetchFail
      = Except.error (PyErr.exception
          "Cannot pull the configuration from the server since the app_name and base_name are not provided.") ∧
    Config.pull (Config.mkDict Option.none (some "h")) "default" Option.none fetchFail fetchFail
      = Except.ok (Config.mkDict Option.none (some "h"),
          ["Failed to set the configuration with error: local variable config referenced before assignment"]) :=
  ⟨(pull_nonpersist_guard (Config.mkDict Option.none (some "h")) (PyVal.bool false)
        "custom" Option.none fetchFail fetchFail rfl rfl).1 (Or.inl (by decide)),
   (pull_nonpersist_guard (Config.mkDict Option.none (some "h")) (PyVal.bool false)
        "default" Option.none fetchFail fetchFail rfl rfl).2 rfl rfl⟩

/-- Claim C4: `push` with falsy `persist` returns normally with zero
network calls; with truthy `persist` a failing `save_config` is caught and
logged as a warning, the call returning normally with the local state
untouched; given the `persist` attribute exists (every constructed
configuration has it), `push` never raises. -/
theorem push_best_effort (d : Dict) (v : PyVal) (cn : String) (ow : Bool)
    (kw : List (String × PyVal))
    (sc : PyVal → String → List (String × PyVal) → Bool → Except PyErr Unit)
    (hp : dictGet d "persist" = some v) :
    (pyTruthy v = false → Config.push d cn ow kw sc = Except.ok (d, 0, [])) ∧
    (∀ b e, pyTruthy v = true → dictGet d "base_id" = some b →
      sc b cn kw ow = Except.error e →
      Config.push d cn ow kw sc = Except.ok
        (d, 1, ["Failed to push the configuration to the server with error: " ++ e.toText])) ∧
    (∃ r, Config.push d cn ow kw sc = Except.ok r) := by
  refine ⟨?_, ?_, ?_⟩
  · intro hf
    simp [Config.push, hp, hf]
  · intro b e ht hb he
    simp [Config.push, hp, ht, hb, he, Except.bind]
  · by_cases ht : pyTruthy v = true
    · rcases hb : dictGet d "base_id" with _ | b
      · exact ⟨(d, 1, ["Failed to push the configuration to the server with error: "
            ++ (PyErr.attributeError "base_id").toText]),
          by simp [Config.push, hp, ht, hb]⟩
      · rcases he : sc b cn kw ow with e | u
        · exact ⟨(d, 1, ["Failed to push the configuration to the server with error: "
              ++ e.toText]), by simp [Config.push, hp, ht, hb, he]⟩
        · exact ⟨(d, 1, []), by simp [Config.push, hp, ht, hb, he]⟩
    · simp only [Bool.not_eq_true] at ht
      exact ⟨(d, 0, []), by simp [Config.push, hp, ht]⟩

/-- Witness for C4: a non-persistable configuration pushes nothing; a
persistable one whose `save_config` raises returns normally with the
warning and unchanged state. -/
theorem push_best_effort_witness :
    Config.push (Config.mkDict Option.none (some "h")) "default" true [] saveFail
      = Except.ok (Config.mkDict Option.none (some "h"), 0, []) ∧
    Config.push (Config.mkDict (some "b") (some "h")) "default" true [] saveFail
      = Except.ok (Config.mkDict (some "b") (some "h"), 1,
          ["Failed to push the configuration to the server with error: connection refused"]) :=
  ⟨(push_best_effort (Config.mkDict Option.none (some "h")) (PyVal.bool false)
      "default" true [] saveFail rfl).1 rfl,
   (push_best_effort (Config.mkDict (some "b") (some "h")) (PyVal.bool true)
      "default" true [] saveFail rfl).2.1 (PyVal.str "b")
      (PyErr.exception "connection refused") rfl rfl rfl⟩

/-- Claim C5: name→id resolution takes the first element of each listing;
an empty app listing raises an `APIRequestError` whose message mentions
the app name, an empty base listing one whose message mentions the app
id. -/
theorem resolution_first_match
    (la : String → Except PyErr (List AppRec))
    (lb : String → String → Except PyErr (List BaseRec))
    (app_name app_id base_name : String) :
    (la app_name = Except.ok [] →
      AgentaSingleton.get_app la app_name = Except.error
        (PyErr.apiRequestError ("App with name " ++ app_name ++ " not found")) ∧
      ∃ pre post, "App with name " ++ app_name ++ " not found" = pre ++ app_name ++ post) ∧
    (∀ a rest, la app_name = Except.ok (a :: rest) →
      AgentaSingleton.get_app la app_name = Except.ok a.app_id) ∧
    (lb app_id base_name = Except.ok [] →
      AgentaSingleton.get_app_base lb app_id base_name = Except.error
        (PyErr.apiRequestError ("No base was found for the app " ++ app_id)) ∧
      ∃ pre post, "No base was found for the app " ++ app_id = pre ++ app_id ++ post) ∧
    (∀ b rest, lb app_id base_name = Except.ok (b :: rest) →
      AgentaSingleton.get_app_base lb app_id base_name = Except.ok b.base_id) := by
  refine ⟨?_, ?_, ?_, ?_⟩
  · intro h
    exact ⟨by simp [AgentaSingleton.get_app, h],
      "App with name ", " not found", rfl⟩
  · intro a rest h
    simp [AgentaSingleton.get_app, h]
  · intro h
    exact ⟨by simp [AgentaSingleton.get_app_base, h],
      "No base was found for the app ", "", by simp⟩
  · intro b rest h
    simp [AgentaSingleton.get_app_base, h]

/-- Witness for C5 on concrete backends: empty listings give the two
not-found errors, singleton listings give the first ids. -/
theorem resolution_first_match_witness :
    AgentaSingleton.get_app appsEmpty "myapp" = Except.error
      (PyErr.apiRequestError "App with name myapp not found") ∧
    AgentaSingleton.get_app appsOne "myapp" = Except.ok "A1" ∧
    AgentaSingleton.get_app_base basesEmpty "A1" "mybase" = Except.error
      (PyErr.apiRequestError "No base was found for the app A1") ∧
    AgentaSingleton.get_app_base basesOne "A1" "mybase" = Except.ok "B1" :=
  ⟨((resolution_first_match appsEmpty basesEmpty "myapp" "A1" "mybase").1 rfl).1,
   (resolution_first_match appsOne basesOne "myapp" "A1" "mybase").2.1 ⟨"A1"⟩ [] rfl,
   ((resolution_first_match appsEmpty basesEmpty "myapp" "A1" "mybase").2.2.1 rfl).1,
   (resolution_first_match appsOne basesOne "myapp" "A1" "mybase").2.2.2 ⟨"B1"⟩ [] rfl⟩

/-- Claim C9: on a persistable configuration whose remote fetch raises,
`pull` returns normally with the state unchanged and exactly two warnings:
the fetch failure, then the failure of the `set` attempt on the unbound
local `config`. -/
theorem pull_fetch_failure_swallowed (d : Dict) (v bidv : PyVal) (cn : String)
    (en : Option String) (ge gn : PyVal → String → Except PyErr FetchedConfig) (e : PyErr)
    (hp : dictGet d "persist" = some v) (ht : pyTruthy v = true)
    (hb : dictGet d "base_id" = some bidv)
    (hf : Config.pullFetch bidv cn en ge gn = Except.error e) :
    Config.pull d cn en ge gn = Except.ok
      (d, ["Failed to pull the configuration from the server with error: " ++ e.toText,
           "Failed to set the configuration with error: local variable config referenced before assignment"]) := by
  simp [Config.pull, hp, ht, hb, hf, PyErr.toText]

/-- Witness for C9: a persistable configuration with a raising backend
fetch returns the two warnings and the unchanged state. -/
theorem pull_fetch_failure_swallowed_witness :
    Config.pull (Config.mkDict (some "b") (some "h")) "default" Option.none fetchFail fetchFail
      = Except.ok (Config.mkDict (some "b") (some "h"),
          ["Failed to pull the configuration from the server with error: connection refused",
           "Failed to set the configuration with error: local variable config referenced before assignment"]) :=
  pull_fetch_failure_swallowed (Config.mkDict (some "b") (some "h")) (PyVal.bool true)
    (PyVal.str "b") "default" Option.none fetchFail fetchFail
    (PyErr.exception "connection refused") rfl rfl rfl rfl

/-- When the resolution guard is falsy, `init` always succeeds and its
outcome is the merged identity verbatim. -/
theorem init_no_resolution (args : InitArgs) (env : Env)
    (la : String → Except PyErr (List AppRec))
    (lb : String → String → Except PyErr (List BaseRec))
    (hR : resolveCondition (pyOr args.base_id env.agenta_base_id)
      (pyOr args.app_name env.agenta_app_name)
      (pyOr args.base_name env.agenta_base_name) = false) :
    AgentaSingleton.init args env la lb = Except.ok
      { attrs := AgentaSingleton.buildAttrs (pyOr args.app_name env.agenta_app_name)
          (pyOr args.base_name env.agenta_base_name) (pyOr args.api_key env.agenta_api_key)
          (pyOr args.base_id env.agenta_base_id) (pyOr args.app_id env.agenta_app_id)
          (pyOrStr args.host (env.agenta_host.getD "http://localhost"))
          env.agenta_variant_id env.agenta_variant_name
        config := Config.mkDict (pyOr args.base_id env.agenta_base_id)
          (some (pyOrStr args.host (env.agenta_host.getD "http://localhost")))
        warned := (!pyTruthyOpt (pyOr args.app_id env.agenta_app_id))
          && ((!pyTruthyOpt (pyOr args.app_name env.agenta_app_name))
              || (!pyTruthyOpt (pyOr args.base_name env.agenta_base_name)))
        resolutionAttempted := resolveCondition (pyOr args.base_id env.agenta_base_id)
          (pyOr args.app_name env.agenta_app_name)
          (pyOr args.base_name env.agenta_base_name) } := by
  unfold AgentaSingleton.init
  simp only [hR, Bool.false_eq_true, if_false]

/-- Claim C6, counterexample: with `AGENTA_BASE_ID` set to the empty
string, the merged base id is present (`some ""`, not null) and both names
are present, yet `init` still attempts name→id resolution — the code tests
Python truthiness, not nullness, so "attempted exactly when the base ID is
absent" fails. -/
theorem init_resolution_counterexample :
    pyOr Option.none (some "") = some "" ∧
    (AgentaSingleton.init
        ⟨some "app", some "base", Option.none, Option.none, Option.none, some "h"⟩
        ⟨Option.none, Option.none, Option.none, some "", Option.none, Option.none,
         Option.none, Option.none⟩
        appsOne basesOne).map (fun o => o.resolutionAttempted)
      = Except.ok true :=
  ⟨rfl, rfl⟩

/-- Claim C6, amended: name→id resolution is attempted exactly when the
merged base id is falsy (absent or empty) and the merged app name and base
name are both truthy (present and non-empty); when the guard is falsy
`init` succeeds without resolution; any exception raised during resolution
is fatal — `init` fails with an `APIRequestError` wrapping the cause. -/
theorem init_resolution_amended (args : InitArgs) (env : Env)
    (la : String → Except PyErr (List AppRec))
    (lb : String → String → Except PyErr (List BaseRec)) :
    (∀ o, AgentaSingleton.init args env la lb = Except.ok o →
      o.resolutionAttempted = resolveCondition (pyOr args.base_id env.agenta_base_id)
        (pyOr args.app_name env.agenta_app_name)
        (pyOr args.base_name env.agenta_base_name)) ∧
    (resolveCondition (pyOr args.base_id env.agenta_base_id)
        (pyOr args.app_name env.agenta_app_name)
        (pyOr args.base_name env.agenta_base_name) = false →
      ∃ o, AgentaSingleton.init args env la lb = Except.ok o) ∧
    (∀ e, resolveCondition (pyOr args.base_id env.agenta_base_id)
        (pyOr args.app_name env.agenta_app_name)
        (pyOr args.base_name env.agenta_base_name) = true →
      AgentaSingleton.resolveIds la lb (pyOr args.app_name env.agenta_app_name)
        (pyOr args.base_name env.agenta_base_name) = Except.error e →
      AgentaSingleton.init args env la lb = Except.error (PyErr.apiRequestError
        ("Failed to get base id and/or app_id from the server with error: " ++ e.toText))) := by
  refine ⟨?_, ?_, ?_⟩
  · intro o hok
    obtain ⟨bid, aid, ho, -⟩ := init_ok_shape args env la lb o hok
    rw [ho]
  · intro hR
    exact ⟨_, init_no_resolution args env la lb hR⟩
  · intro e hR hres
    unfold AgentaSingleton.init
    simp only [hR, if_true, hres]

/-- Witness for the amended C6: with an explicit base id the guard is
falsy and `init` succeeds; with only names and a raising app listing,
`init` fails with the wrapping `APIRequestError`. -/
theorem init_resolution_amended_witness :
    (∃ o, AgentaSingleton.init
        ⟨Option.none, Option.none, Option.none, some "b", Option.none, some "h"⟩
        envEmpty appsOne basesOne = Except.ok o) ∧
    AgentaSingleton.init
        ⟨some "app", some "base", Option.none, Option.none, Option.none, some "h"⟩
        envEmpty appsFail basesOne
      = Except.error (PyErr.apiRequestError
          "Failed to get base id and/or app_id from the server with error: connection refused") :=
  ⟨(init_resolution_amended
      ⟨Option.none, Option.none, Option.none, some "b", Option.none, some "h"⟩
      envEmpty appsOne basesOne).2.1 rfl,
   (init_resolution_amended
      ⟨some "app", some "base", Option.none, Option.none, Option.none, some "h"⟩
      envEmpty appsFail basesOne).2.2 (PyErr.exception "connection refused") rfl rfl⟩

/-- Claim C7, counterexample: the caller explicitly passes `app_name = ""`
while `AGENTA_APP_NAME` is `"x"`; the stored app name is `"x"`, not the
explicitly passed argument — Python `or` treats the provided empty string
as absent. -/
theorem init_identity_counterexample :
    (AgentaSingleton.init
        ⟨some "", Option.none, Option.none, some "b", Option.none, some "h"⟩
        ⟨some "x", Option.none, Option.none, Option.none, Option.none, Option.none,
         Option.none, Option.none⟩
        appsOne basesOne).map (fun o => dictGet o.attrs "app_name")
      = Except.ok (some (PyVal.str "x")) ∧
    some (PyVal.str "x") ≠ some (PyVal.str "") :=
  ⟨rfl, by decide⟩

/-- Claim C7, amended: after a successful `init`, each identity field
holds the explicitly passed argument when that argument is non-empty;
an absent or empty argument falls back to the environment variable; when
both the explicit host and `AGENTA_HOST` are unavailable the host is
`"http://localhost"`; base id and app id follow the same rule whenever
name→id resolution was not attempted. -/
theorem init_identity_fields_amended (args : InitArgs) (env : Env)
    (la : String → Except PyErr (List AppRec))
    (lb : String → String → Except PyErr (List BaseRec))
    (o : InitOutcome)
    (hok : AgentaSingleton.init args env la lb = Except.ok o) :
    (∀ s, args.app_name = some s → s ≠ "" →
      dictGet o.attrs "app_name" = some (PyVal.str s)) ∧
    (pyTruthyOpt args.app_name = false →
      dictGet o.attrs "app_name" = pyOfOpt env.agenta_app_name) ∧
    (∀ s, args.base_name = some s → s ≠ "" →
      dictGet o.attrs "base_name" = some (PyVal.str s)) ∧
    (pyTruthyOpt args.base_name = false →
      dictGet o.attrs "base_name" = pyOfOpt env.agenta_base_name) ∧
    (∀ s, args.api_key = some s → s ≠ "" →
      dictGet o.attrs "api_key" = some (PyVal.str s)) ∧
    (pyTruthyOpt args.api_key = false →
      dictGet o.attrs "api_key" = pyOfOpt env.agenta_api_key) ∧
    (∀ s, args.host = some s → s ≠ "" →
      dictGet o.attrs "host" = some (PyVal.str s)) ∧
    (pyTruthyOpt args.host = false → ∀ t, env.agenta_host = some t →
      dictGet o.attrs "host" = some (PyVal.str t)) ∧
    (pyTruthyOpt args.host = false → env.agenta_host = Option.none →
      dictGet o.attrs "host" = some (PyVal.str "http://localhost")) ∧
    (o.resolutionAttempted = false →
      (∀ s, args.base_id = some s → s ≠ "" →
        dictGet o.attrs "base_id" = some (PyVal.str s)) ∧
      (pyTruthyOpt args.base_id = false →
        dictGet o.attrs "base_id" = pyOfOpt env.agenta_base_id) ∧
      (∀ s, args.app_id = some s → s ≠ "" →
        dictGet o.attrs "app_id" = some (PyVal.str s)) ∧
      (pyTruthyOpt args.app_id = false →
        dictGet o.attrs "app_id" = pyOfOpt env.agenta_app_id)) := by
  obtain ⟨bid, aid, ho, hres⟩ := init_ok_shape args env la lb o hok
  subst ho
  refine ⟨?_, ?_, ?_, ?_, ?_, ?_, ?_, ?_, ?_, ?_⟩
  · intro s hs hne
    simp [buildAttrs_app_name, hs, pyOr, pyTruthyOpt, pyOfOpt, hne]
  · intro hfalsy
    simp [buildAttrs_app_name, pyOr, hfalsy]
  · intro s hs hne
    simp [buildAttrs_base_name, hs, pyOr, pyTruthyOpt, pyOfOpt, hne]
  · intro hfalsy
    simp [buildAttrs_base_name, pyOr, hfalsy]
  · intro s hs hne
    simp [buildAttrs_api_key, hs, pyOr, pyTruthyOpt, pyOfOpt, hne]
  · intro hfalsy
    simp [buildAttrs_api_key, pyOr, hfalsy]
  · intro s hs hne
    simp [buildAttrs_host, hs, pyOrStr, hne]
  · intro hfalsy t ht
    rcases hah : args.host with _ | s
    · simp [buildAttrs_host, pyOrStr, hah, ht]
    · rw [hah] at hfalsy
      simp [pyTruthyOpt] at hfalsy
      simp [buildAttrs_host, pyOrStr, hah, hfalsy, ht]
  · intro hfalsy hnone
    rcases hah : args.host with _ | s
    · simp [buildAttrs_host, pyOrStr, hah, hnone]
    · rw [hah] at hfalsy
      simp [pyTruthyOpt] at hfalsy
      simp [buildAttrs_host, pyOrStr, hah, hfalsy, hnone]
  · intro hRA
    simp only at hRA
    obtain ⟨hbid, haid⟩ := hres (by simpa using hRA)
    subst hbid haid
    refine ⟨?_, ?_, ?_, ?_⟩
    · intro s hs hne
      simp [buildAttrs_base_id, hs, pyOr, pyTruthyOpt, pyOfOpt, hne]
    · intro hfalsy
      simp [buildAttrs_base_id, pyOr, hfalsy]
    · intro s hs hne
      simp [buildAttrs_app_id, hs, pyOr, pyTruthyOpt, pyOfOpt, hne]
    · intro hfalsy
      simp [buildAttrs_app_id, pyOr, hfalsy]

/-- Concrete `init` arguments for the identity-field witness: app name
passed non-empty, base name absent, api key passed empty, base id absent,
app id passed non-empty, host absent. -/
def argsW : InitArgs :=
  ⟨some "an", Option.none, some "", Option.none, some "ai", Option.none⟩

/-- Concrete environment for the identity-field witness. -/
def envW : Env :=
  ⟨some "x1", some "bn", some "key", some "bid", Option.none, Option.none,
   Option.none, Option.none⟩

/-- The outcome `init argsW envW` computes to (resolution guard falsy
because the environment supplies a non-empty base id). -/
def outcomeW : InitOutcome :=
  { attrs := AgentaSingleton.buildAttrs (some "an") (some "bn") (some "key")
      (some "bid") (some "ai") "http://localhost" Option.none Option.none
    config := Config.mkDict (some "bid") (some "http://localhost")
    warned := false
    resolutionAttempted := false }

/-- Witness for the amended C7 at `argsW`/`envW`: non-empty explicit
argument wins (`app_name`), absent argument falls to the environment
(`base_name`), empty argument falls to the environment (`api_key`), host
defaults, and the base id comes from the environment since resolution was
not attempted. -/
theorem init_identity_fields_amended_witness :
    dictGet outcomeW.attrs "app_name" = some (PyVal.str "an") ∧
    dictGet outcomeW.attrs "base_name" = some (PyVal.str "bn") ∧
    dictGet outcomeW.attrs "api_key" = some (PyVal.str "key") ∧
    dictGet outcomeW.attrs "host" = some (PyVal.str "http://localhost") ∧
    dictGet outcomeW.attrs "base_id" = some (PyVal.str "bid") :=
  have h := init_identity_fields_amended argsW envW appsOne basesOne outcomeW rfl
  ⟨h.1 "an" rfl (by decide),
   h.2.2.2.1 rfl,
   h.2.2.2.2.2.1 rfl,
   h.2.2.2.2.2.2.2.2.1 rfl rfl,
   (h.2.2.2.2.2.2.2.2.2 rfl).2.1 rfl⟩
